import Mathlib

/-!
# Extractor: transaction call-data to relay events

A shallow embedding of `extractor/tx.go` and `extractor/method.go`.

Conventions of the embedding.

* A Go pointer that may be nil is an `Option`; `*big.Int` is `Option Int`.
* A Go `error` is `Option Error` (`none` is the nil error).
* A run-time panic (nil dereference, failed unchecked type assertion, slice out
  of range, `MustDecode`) is the `Exec.crash` outcome.
* Functions of other packages (go-ethereum, relay-lib) and the functions of this
  package that live outside the two embedded files (`Emit`, `getTopic`) are the
  fields of `Lib`. General theorems hold for every `Lib`; evaluations on a
  concrete input use `exampleLib`.
* Methods with a value receiver (`func (m MethodData) ...`) work on a copy of
  `m`: what they assign to `m` is lost when they return. What they write
  through a pointer held in `m` (the decoded payload behind `m.Method`) stays.
* `log.Debugf` has no effect of interest, but Go evaluates its arguments before
  the call, so an argument that dereferences a nil pointer panics.
-/

namespace Extractor

/-! ## Data model -/

/-- Modelled from the spec: `common.Address` of go-ethereum (20 bytes), kept as the
number the bytes spell. Its Go zero value is `0`. -/
abbrev Address := Nat

/-- Modelled from the spec: `common.Hash` of go-ethereum (32 bytes), kept as the
number the bytes spell. Its Go zero value is `0`. -/
abbrev Hash := Nat

/-- Modelled from the spec: `types.NilAddress` of relay-lib, the empty (all-zero)
address that stands for an absent delegate address. -/
def NilAddress : Address := 0

/-- A `*big.Int`: `none` is the nil pointer. -/
abbrev BigInt := Option Int

/-- A Go `error` value, kept as its message. -/
abbrev Error := String

/-- Modelled from the spec: `types.TxStatus` of relay-lib. `TX_STATUS_UNKNOWN` is
the zero value; the extractor only ever assigns the other three. -/
inductive TxStatus
  | TX_STATUS_UNKNOWN
  | TX_STATUS_PENDING
  | TX_STATUS_SUCCESS
  | TX_STATUS_FAILED
  deriving DecidableEq, Repr

open TxStatus

/-- Modelled from the spec: the method-name constants of relay-lib
(`contract.METHOD_...`). The Go `switch` statements over them only compile
when the case constants are pairwise distinct. -/
def METHOD_UNKNOWN : String := "unknown"

/-- Modelled from the spec: `contract.METHOD_SUBMIT_RING`. -/
def METHOD_SUBMIT_RING : String := "submitRing"

/-- Modelled from the spec: `contract.METHOD_CANCEL_ORDER`. -/
def METHOD_CANCEL_ORDER : String := "cancelOrder"

/-- Modelled from the spec: `contract.METHOD_CUTOFF_ALL`. -/
def METHOD_CUTOFF_ALL : String := "cancelAllOrders"

/-- Modelled from the spec: `contract.METHOD_CUTOFF_PAIR`. -/
def METHOD_CUTOFF_PAIR : String := "cancelAllOrdersByTradingPair"

/-- Modelled from the spec: `contract.METHOD_APPROVE`. -/
def METHOD_APPROVE : String := "approve"

/-- Modelled from the spec: `contract.METHOD_TRANSFER`. -/
def METHOD_TRANSFER : String := "transfer"

/-- Modelled from the spec: `contract.METHOD_WETH_DEPOSIT`. -/
def METHOD_WETH_DEPOSIT : String := "deposit"

/-- Modelled from the spec: `contract.METHOD_WETH_WITHDRAWAL`. -/
def METHOD_WETH_WITHDRAWAL : String := "withdraw"

/-- The eight method names that `afterUnpack` has a case for, in the order of
its `switch`. -/
def handledMethods : List String :=
  [METHOD_SUBMIT_RING, METHOD_CANCEL_ORDER, METHOD_CUTOFF_ALL, METHOD_CUTOFF_PAIR,
   METHOD_APPROVE, METHOD_TRANSFER, METHOD_WETH_DEPOSIT, METHOD_WETH_WITHDRAWAL]

/-- Modelled from the spec: `ethtyp.Transaction` of relay-lib (section 6, "Transaction
record"). The `types.Big` fields are values, so they are never nil. -/
structure Transaction where
  Hash : String
  Nonce : Int
  BlockHash : String
  BlockNumber : Int
  TransactionIndex : Int
  From : String
  To : String
  Value : Int
  GasPrice : Int
  Gas : Int
  Input : String
  deriving DecidableEq, Repr

/-- Modelled from the spec: `ethtyp.TransactionReceipt` of relay-lib (section 6,
"Receipt record"): the gas used and what its `Failed` method reads. -/
structure TransactionReceipt where
  GasUsed : Int
  StatusCode : Option Int
  deriving DecidableEq, Repr

/-- Modelled from the spec: `types.TxInfo` of relay-lib (section 3,
"TransactionContext"). `BlockTime`, `TxIndex` and `TxLogIndex` are `int64`. -/
structure TxInfo where
  Protocol : Address
  DelegateAddress : Address
  From : Address
  To : Address
  BlockHash : Hash
  BlockNumber : BigInt
  BlockTime : Int
  TxHash : Hash
  TxIndex : Int
  TxLogIndex : Int
  Value : BigInt
  Status : TxStatus
  GasLimit : BigInt
  GasUsed : BigInt
  GasPrice : BigInt
  Nonce : BigInt
  Identify : String
  deriving DecidableEq, Repr

/-- The Go zero value of `types.TxInfo` (`var txinfo types.TxInfo`). -/
def TxInfo.zero : TxInfo :=
  { Protocol := 0, DelegateAddress := 0, From := 0, To := 0, BlockHash := 0,
    BlockNumber := none, BlockTime := 0, TxHash := 0, TxIndex := 0, TxLogIndex := 0,
    Value := none, Status := TX_STATUS_UNKNOWN, GasLimit := none, GasUsed := none,
    GasPrice := none, Nonce := none, Identify := "" }

/-- The decoded argument values held in a method-input struct of relay-lib. This
package never reads them: it hands the struct to `Abi.Unpack` and to
`ConvertDown`. -/
abbrev Fields := List Int

/-- The dynamic type of the pointer stored in `MethodData.Method`: one of the seven
types the converters assert, or any other type. -/
inductive InputType
  | SubmitRingMethodInputs
  | CancelOrderMethod
  | CutoffMethod
  | CutoffPairMethod
  | ApproveMethod
  | TransferMethod
  | WethWithdrawalMethod
  | other
  deriving DecidableEq, Repr

/-- A non-nil value of `MethodData.Method` (an `interface{}`): a pointer of dynamic
type `dynType` to a struct holding `fields`. -/
structure MethodInputs where
  dynType : InputType
  fields : Fields
  deriving DecidableEq, Repr

/-- Modelled from the spec: `types.Order` of relay-lib, with the fields that
`fullFillCancelOrder` touches; `rest` holds the others. -/
structure Order where
  Protocol : Address
  DelegateAddress : Address
  TokenS : Address
  TokenB : Address
  AmountS : BigInt
  AmountB : BigInt
  Hash : Hash
  rest : Fields
  deriving DecidableEq, Repr

/-- Modelled from the spec: `types.SubmitRingMethodEvent` of relay-lib. -/
structure SubmitRingMethodEvent where
  TxInfo : TxInfo
  OrderList : List Order
  FeeReceipt : Address
  FeeSelection : Nat
  Err : Option Error
  deriving DecidableEq, Repr

/-- Modelled from the spec: `types.OrderCancelledEvent` of relay-lib. -/
structure OrderCancelledEvent where
  TxInfo : TxInfo
  OrderHash : Hash
  AmountCancelled : BigInt
  deriving DecidableEq, Repr

/-- Modelled from the spec: `types.CutoffEvent` of relay-lib. -/
structure CutoffEvent where
  TxInfo : TxInfo
  Owner : Address
  Cutoff : BigInt
  OrderHashList : List Hash
  deriving DecidableEq, Repr

/-- Modelled from the spec: `types.CutoffPairEvent` of relay-lib. -/
structure CutoffPairEvent where
  TxInfo : TxInfo
  Owner : Address
  Token1 : Address
  Token2 : Address
  Cutoff : BigInt
  OrderHashList : List Hash
  deriving DecidableEq, Repr

/-- Modelled from the spec: `types.ApprovalEvent` of relay-lib. -/
structure ApprovalEvent where
  TxInfo : TxInfo
  Owner : Address
  Spender : Address
  Amount : BigInt
  deriving DecidableEq, Repr

/-- Modelled from the spec: `types.TransferEvent` of relay-lib. -/
structure TransferEvent where
  TxInfo : TxInfo
  Sender : Address
  Receiver : Address
  Amount : BigInt
  deriving DecidableEq, Repr

/-- Modelled from the spec: `types.WethDepositEvent` of relay-lib. -/
structure WethDepositEvent where
  TxInfo : TxInfo
  Dst : Address
  Amount : BigInt
  deriving DecidableEq, Repr

/-- Modelled from the spec: `types.WethWithdrawalEvent` of relay-lib. -/
structure WethWithdrawalEvent where
  TxInfo : TxInfo
  Src : Address
  Amount : BigInt
  deriving DecidableEq, Repr

/-- The `interface{}` value handed to `Emit`. `nil` is the nil interface; every
other case is a typed pointer, whose `none` is a nil pointer of that type.
`transferRef` is the `**types.TransferEvent` that `handleEthTransfer` passes
(`&dst` where `dst` is already a pointer). -/
inductive Event
  | nil
  | submitRing (p : Option SubmitRingMethodEvent)
  | orderCancelled (p : Option OrderCancelledEvent)
  | cutoff (p : Option CutoffEvent)
  | cutoffPair (p : Option CutoffPairEvent)
  | approval (p : Option ApprovalEvent)
  | transfer (p : Option TransferEvent)
  | wethDeposit (p : Option WethDepositEvent)
  | wethWithdrawal (p : Option WethWithdrawalEvent)
  | transferRef (e : TransferEvent)
  deriving DecidableEq, Repr

/-- The transaction context carried by a published event, when it carries one. -/
def Event.txInfo : Event → Option TxInfo
  | .nil => none
  | .submitRing p => p.map (·.TxInfo)
  | .orderCancelled p => p.map (·.TxInfo)
  | .cutoff p => p.map (·.TxInfo)
  | .cutoffPair p => p.map (·.TxInfo)
  | .approval p => p.map (·.TxInfo)
  | .transfer p => p.map (·.TxInfo)
  | .wethDeposit p => p.map (·.TxInfo)
  | .wethWithdrawal p => p.map (·.TxInfo)
  | .transferRef e => some e.TxInfo

/-- The struct `MethodData` of method.go. `TxInfo` is embedded by value; `Method`
is an `interface{}` (`none` is the nil interface); `Abi` is a `*abi.ABI` of
relay-lib, kept as an identifier of the interface description. -/
structure MethodData where
  TxInfo : TxInfo
  Method : Option MethodInputs
  Abi : Nat
  Id : String
  Name : String
  deriving DecidableEq, Repr

/-- Outcome of running a Go function: it returns, or it panics. -/
inductive Exec (α : Type)
  | ret (a : α)
  | crash (msg : String)
  deriving DecidableEq, Repr

/-- The collaborators of the two embedded files: library functions and the
functions of this package defined elsewhere. -/
structure Lib where
  /-- The go-ethereum `common.HexToAddress`. -/
  HexToAddress : String → Address
  /-- The go-ethereum `common.HexToHash`. -/
  HexToHash : String → Hash
  /-- The relay-lib `(*TransactionReceipt).Failed`. -/
  Failed : TransactionReceipt → Transaction → Bool
  /-- The go-ethereum `hexutil.MustDecode` on the bytes of its argument; `none` is
  its panic on malformed input. -/
  MustDecode : List UInt8 → Option (List UInt8)
  /-- The relay-lib `(*abi.ABI).Unpack(v, name, data, topics)`: the fields it leaves
  in the struct behind `v` and the error it returns. -/
  Unpack : Nat → Option MethodInputs → String → List UInt8 → Fields × Option Error
  /-- The publish capability `Emit(topic, event)` of this package. -/
  Emit : String → Event → Option Error
  /-- The function `getTopic` of this package. -/
  getTopic : String → Bool → Bool → String
  /-- The relay-lib `(*SubmitRingMethodInputs).ConvertDown`. -/
  convertSubmitRing : Fields → Option SubmitRingMethodEvent × Option Error
  /-- The relay-lib `(*CancelOrderMethod).ConvertDown`. -/
  convertCancelOrder : Fields → Option Order × BigInt × Option Error
  /-- The relay-lib `(*CutoffMethod).ConvertDown`. -/
  convertCutoff : Fields → Option CutoffEvent
  /-- The relay-lib `(*CutoffPairMethod).ConvertDown`. -/
  convertCutoffPair : Fields → Option CutoffPairEvent
  /-- The relay-lib `(*ApproveMethod).ConvertDown`. -/
  convertApprove : Fields → Option ApprovalEvent
  /-- The relay-lib `(*TransferMethod).ConvertDown`. -/
  convertTransfer : Fields → Option TransferEvent
  /-- The relay-lib `(*WethWithdrawalMethod).ConvertDown`. -/
  convertWithdrawal : Fields → Option WethWithdrawalEvent
  /-- The relay-lib `(*Order).GenerateHash`. -/
  GenerateHash : Order → Hash

/-! ## tx.go -/

/-- Two-complement wrap of an integer into the `int64` range. -/
def wrapInt64 (n : Int) : Int := (n + 2 ^ 63) % 2 ^ 64 - 2 ^ 63

/-- The method `(*big.Int).Int64`: the low 64 bits of the magnitude read as an
`int64`, negated when the number is negative. -/
def Int64 (x : Int) : Int :=
  let v := wrapInt64 ((x.natAbs % 2 ^ 64 : Nat) : Int)
  if x < 0 then wrapInt64 (-v) else v

/-- Whether an integer is representable as an `int64`. -/
def fitsInt64 (x : Int) : Prop := -(2 : Int) ^ 63 ≤ x ∧ x < (2 : Int) ^ 63

instance (x : Int) : Decidable (fitsInt64 x) := by
  unfold fitsInt64; exact inferInstance

/-- The function `setTxInfo` of tx.go. `DelegateAddress`, `TxLogIndex` and `Status`
are not assigned and keep their zero values. -/
def setTxInfo (L : Lib) (tx : Transaction) (gasUsed : BigInt) (blockTime : Int)
    (methodName : String) : TxInfo :=
  let txinfo := TxInfo.zero
  let txinfo := { txinfo with BlockNumber := some tx.BlockNumber }
  let txinfo := { txinfo with BlockTime := Int64 blockTime }
  let txinfo := { txinfo with BlockHash := L.HexToHash tx.BlockHash }
  let txinfo := { txinfo with TxHash := L.HexToHash tx.Hash }
  let txinfo := { txinfo with TxIndex := Int64 tx.TransactionIndex }
  let txinfo := { txinfo with Protocol := L.HexToAddress tx.To }
  let txinfo := { txinfo with From := L.HexToAddress tx.From }
  let txinfo := { txinfo with To := L.HexToAddress tx.To }
  let txinfo := { txinfo with GasLimit := some tx.Gas }
  let txinfo := { txinfo with GasUsed := gasUsed }
  let txinfo := { txinfo with GasPrice := some tx.GasPrice }
  let txinfo := { txinfo with Nonce := some tx.Nonce }
  let txinfo := { txinfo with Value := some tx.Value }
  let txinfo := { txinfo with Identify := methodName }
  txinfo

/-- The function `getGasUsed` of tx.go. -/
def getGasUsed (receipt : Option TransactionReceipt) : BigInt :=
  match receipt with
  | none => some 0
  | some r => some r.GasUsed

/-- The function `getStatus` of tx.go. -/
def getStatus (L : Lib) (tx : Transaction) (receipt : Option TransactionReceipt) :
    TxStatus :=
  match receipt with
  | none => TX_STATUS_PENDING
  | some r => if L.Failed r tx then TX_STATUS_FAILED else TX_STATUS_SUCCESS

/-- A call observed while a handler runs. `unpack` and `afterUnpack` record that
the step of that name was entered; `Emit` records what was published. -/
inductive Call
  | unpack
  | afterUnpack
  | Emit (topic : String) (event : Event)
  deriving DecidableEq, Repr

/-- What a handler did: the calls it made, in order, and how it ended. -/
structure Run where
  calls : List Call
  result : Exec (Option Error)
  deriving DecidableEq, Repr

/-- The events handed to `Emit` during a run, with their topics. -/
def Run.emitted (r : Run) : List (String × Event) :=
  r.calls.filterMap fun c =>
    match c with
    | .Emit topic event => some (topic, event)
    | _ => none

/-- The method `handleEthTransfer` of tx.go. The result of `Emit` is dropped. -/
def handleEthTransfer (L : Lib) (tx : Transaction) (receipt : Option TransactionReceipt)
    (time : Int) : Run :=
  let dst : TransferEvent := { TxInfo := TxInfo.zero, Sender := 0, Receiver := 0, Amount := none }
  let gasUsed := getGasUsed receipt
  let txinfo := setTxInfo L tx gasUsed time METHOD_UNKNOWN
  let dst := { dst with TxInfo := txinfo }
  let dst := { dst with Amount := some tx.Value }
  let dst := { dst with TxInfo := { dst.TxInfo with TxLogIndex := 0 } }
  let dst := { dst with Sender := L.HexToAddress tx.From }
  let dst := { dst with Receiver := L.HexToAddress tx.To }
  let dst := { dst with TxInfo := { dst.TxInfo with Status := getStatus L tx receipt } }
  let topic := L.getTopic "" false true
  { calls := [.Emit topic (.transferRef dst)], result := .ret none }

/-! ## method.go -/

/-- Message of the panic Go raises on a nil pointer dereference. -/
def nilDereference : String := "invalid memory address or nil pointer dereference"

/-- Apply a function to the value a run returns; a panic stays a panic. -/
def Exec.map {α β : Type} (f : α → β) : Exec α → Exec β
  | .ret a => .ret (f a)
  | .crash msg => .crash msg

/-- The bytes of a Go string. Go measures and slices strings by bytes. -/
def goBytes (s : String) : List UInt8 := s.toUTF8.data.toList

/-- The copy of `m` that `beforeUnpack` works on, after its three assignments.
The receiver is a value, so the caller never sees this copy. -/
def beforeUnpackLocal (L : Lib) (m : MethodData) (tx : Transaction) (gasUsed : BigInt)
    (blockTime : Int) (status : TxStatus) (methodName : String) : MethodData :=
  let m := { m with TxInfo := setTxInfo L tx gasUsed blockTime methodName }
  let m := { m with TxInfo := { m.TxInfo with TxLogIndex := 0 } }
  let m := { m with TxInfo := { m.TxInfo with Status := status } }
  m

/-- The method `beforeUnpack` of method.go: it returns only the error. -/
def beforeUnpack (L : Lib) (m : MethodData) (tx : Transaction) (gasUsed : BigInt)
    (blockTime : Int) (status : TxStatus) (methodName : String) : Option Error :=
  let m := beforeUnpackLocal L m tx gasUsed blockTime status methodName
  if m.Name = METHOD_CANCEL_ORDER then
    if m.TxInfo.DelegateAddress = NilAddress then
      some "cancelOrder method cann't get delegate address"
    else none
  else none

/-- The method `unpack` of method.go. It returns the value of `m.Method` as the
caller sees it afterwards (`Abi.Unpack` writes through the pointer) and the
error. `tx.Input[10:]` panics when the input has fewer than 10 bytes. -/
def unpack (L : Lib) (m : MethodData) (tx : Transaction) :
    Exec (Option MethodInputs × Option Error) :=
  let input := goBytes tx.Input
  if input.length < 10 then .crash "slice bounds out of range"
  else
    match L.MustDecode (goBytes "0x" ++ input.drop 10) with
    | none => .crash "hexutil.MustDecode"
    | some data =>
      let out := L.Unpack m.Abi m.Method m.Name data
      .ret (m.Method.map fun v => { v with fields := out.1 }, out.2)

/-- The method `fullFillSubmitRing` of method.go. -/
def fullFillSubmitRing (L : Lib) (m : MethodData) :
    Exec (Option SubmitRingMethodEvent × Option Error) :=
  match m.Method with
  | some ⟨.SubmitRingMethodInputs, src⟩ =>
    match L.convertSubmitRing src with
    | (event, some err) => .ret (event, some ("submitRing method inputs convert error:" ++ err))
    | (none, none) => .crash nilDereference
    | (some event, none) =>
      let event := { event with TxInfo := m.TxInfo }
      let event :=
        if event.TxInfo.Status = TX_STATUS_FAILED then
          { event with Err := some ("method " ++ METHOD_SUBMIT_RING ++ " transaction failed") }
        else event
      .ret (some event, none)
  | _ => .ret (none, some "submitRing method inputs type error")

/-- The method `fullFillCancelOrder` of method.go. The named result `event` is never
assigned, and the `log.Debugf` call reads `event.TxHash` before the return. -/
def fullFillCancelOrder (L : Lib) (m : MethodData) :
    Exec (Option OrderCancelledEvent × Option Error) :=
  let event : Option OrderCancelledEvent := none
  match m.Method with
  | some ⟨.CancelOrderMethod, src⟩ =>
    match L.convertCancelOrder src with
    | (none, _, _) => .crash nilDereference
    | (some order, cancelAmount, _) =>
      let order := { order with Protocol := m.TxInfo.Protocol }
      let order := { order with DelegateAddress := m.TxInfo.DelegateAddress }
      let order := { order with Hash := L.GenerateHash order }
      let tmCancelEvent : OrderCancelledEvent :=
        { TxInfo := TxInfo.zero, OrderHash := 0, AmountCancelled := none }
      let tmCancelEvent := { tmCancelEvent with TxInfo := m.TxInfo }
      let tmCancelEvent := { tmCancelEvent with OrderHash := order.Hash }
      let tmCancelEvent := { tmCancelEvent with AmountCancelled := cancelAmount }
      match event with
      | none => .crash nilDereference
      | some _ => .ret (some tmCancelEvent, none)
  | _ => .ret (none, some "cancelOrder method inputs type error")

/-- The method `fullFillCutoffAll` of method.go. The `log.Debugf` call reads
`event.Cutoff.Int64()`, which panics on a nil `Cutoff`. -/
def fullFillCutoffAll (L : Lib) (m : MethodData) :
    Exec (Option CutoffEvent × Option Error) :=
  match m.Method with
  | some ⟨.CutoffMethod, src⟩ =>
    match L.convertCutoff src with
    | none => .crash nilDereference
    | some event =>
      let event := { event with TxInfo := m.TxInfo }
      let event := { event with Owner := event.TxInfo.From }
      match event.Cutoff with
      | none => .crash nilDereference
      | some _ => .ret (some event, none)
  | _ => .ret (none, some "cutoffAll method inputs type error")

/-- The method `fullFillCutoffPair` of method.go. -/
def fullFillCutoffPair (L : Lib) (m : MethodData) :
    Exec (Option CutoffPairEvent × Option Error) :=
  match m.Method with
  | some ⟨.CutoffPairMethod, src⟩ =>
    match L.convertCutoffPair src with
    | none => .crash nilDereference
    | some event =>
      let event := { event with TxInfo := m.TxInfo }
      let event := { event with Owner := event.TxInfo.From }
      match event.Cutoff with
      | none => .crash nilDereference
      | some _ => .ret (some event, none)
  | _ => .ret (none, some "cutoffPair method inputs type error")

/-- The method `fullFillApprove` of method.go. -/
def fullFillApprove (L : Lib) (m : MethodData) :
    Exec (Option ApprovalEvent × Option Error) :=
  match m.Method with
  | some ⟨.ApproveMethod, src⟩ =>
    match L.convertApprove src with
    | none => .crash nilDereference
    | some event =>
      let event := { event with TxInfo := m.TxInfo }
      let event := { event with Owner := m.TxInfo.From }
      .ret (some event, none)
  | _ => .ret (none, some "approve method inputs type error")

/-- The method `fullFillTransfer` of method.go. Its type assertion is unchecked, so
a payload of another type panics. -/
def fullFillTransfer (L : Lib) (m : MethodData) :
    Exec (Option TransferEvent × Option Error) :=
  match m.Method with
  | some ⟨.TransferMethod, src⟩ =>
    match L.convertTransfer src with
    | none => .crash nilDereference
    | some event =>
      let event := { event with Sender := m.TxInfo.From }
      let event := { event with TxInfo := m.TxInfo }
      .ret (some event, none)
  | _ => .crash "interface conversion: interface {} is not *contract.TransferMethod"

/-- The method `fullFillDeposit` of method.go. The named result `event` is a nil
pointer when `event.Dst = m.From` assigns through it. -/
def fullFillDeposit (m : MethodData) : Exec (Option WethDepositEvent × Option Error) :=
  let event : Option WethDepositEvent := none
  match event with
  | none => .crash nilDereference
  | some event =>
    let event := { event with Dst := m.TxInfo.From }
    let event := { event with Amount := m.TxInfo.Value }
    let event := { event with TxInfo := m.TxInfo }
    .ret (some event, none)

/-- The method `fullFillWithdrawal` of method.go. -/
def fullFillWithdrawal (L : Lib) (m : MethodData) :
    Exec (Option WethWithdrawalEvent × Option Error) :=
  match m.Method with
  | some ⟨.WethWithdrawalMethod, src⟩ =>
    match L.convertWithdrawal src with
    | none => .crash nilDereference
    | some event =>
      let event := { event with Src := m.TxInfo.From }
      let event := { event with TxInfo := m.TxInfo }
      .ret (some event, none)
  | _ => .ret (none, some "wethWithdrawal method inputs type error")

/-- The method `afterUnpack` of method.go: a `switch` on `m.Name`, first matching
case wins, no default. The typed pointer a converter returns is stored in the
`interface{}` result `event`; with no matching case `event` stays the nil
interface. -/
def afterUnpack (L : Lib) (m : MethodData) : Exec (Event × Option Error) :=
  if m.Name = METHOD_SUBMIT_RING then
    (fullFillSubmitRing L m).map fun r => (.submitRing r.1, r.2)
  else if m.Name = METHOD_CANCEL_ORDER then
    (fullFillCancelOrder L m).map fun r => (.orderCancelled r.1, r.2)
  else if m.Name = METHOD_CUTOFF_ALL then
    (fullFillCutoffAll L m).map fun r => (.cutoff r.1, r.2)
  else if m.Name = METHOD_CUTOFF_PAIR then
    (fullFillCutoffPair L m).map fun r => (.cutoffPair r.1, r.2)
  else if m.Name = METHOD_APPROVE then
    (fullFillApprove L m).map fun r => (.approval r.1, r.2)
  else if m.Name = METHOD_TRANSFER then
    (fullFillTransfer L m).map fun r => (.transfer r.1, r.2)
  else if m.Name = METHOD_WETH_DEPOSIT then
    (fullFillDeposit m).map fun r => (.wethDeposit r.1, r.2)
  else if m.Name = METHOD_WETH_WITHDRAWAL then
    (fullFillWithdrawal L m).map fun r => (.wethWithdrawal r.1, r.2)
  else .ret (.nil, none)

/-- The method `handleMethod` of method.go. `beforeUnpack` cannot change `m` (value
receiver); `unpack` changes only what `m.Method` points to. -/
def handleMethod (L : Lib) (m : MethodData) (tx : Transaction) (gasUsed : BigInt)
    (blockTime : Int) (status : TxStatus) (methodName : String) : Run :=
  match beforeUnpack L m tx gasUsed blockTime status methodName with
  | some err => { calls := [], result := .ret (some err) }
  | none =>
    match unpack L m tx with
    | .crash msg => { calls := [.unpack], result := .crash msg }
    | .ret (_, some err) => { calls := [.unpack], result := .ret (some err) }
    | .ret (payload, none) =>
      let m := { m with Method := payload }
      match afterUnpack L m with
      | .crash msg => { calls := [.unpack, .afterUnpack], result := .crash msg }
      | .ret (_, some err) => { calls := [.unpack, .afterUnpack], result := .ret (some err) }
      | .ret (event, none) =>
        { calls := [.unpack, .afterUnpack, .Emit m.Name event],
          result := .ret (L.Emit m.Name event) }

/-! ## A concrete set of collaborators, for evaluating the code on examples -/

/-- Value of a hexadecimal digit; other characters count as 0. -/
def hexDigit (c : Char) : Nat :=
  if 48 ≤ c.toNat ∧ c.toNat ≤ 57 then c.toNat - 48
  else if 97 ≤ c.toNat ∧ c.toNat ≤ 102 then c.toNat - 87
  else if 65 ≤ c.toNat ∧ c.toNat ≤ 70 then c.toNat - 55
  else 0

/-- The number spelled by a hexadecimal string with an optional `0x` in front. -/
def hexValue (s : String) : Nat :=
  match s.data with
  | '0' :: 'x' :: digits => digits.foldl (fun acc c => 16 * acc + hexDigit c) 0
  | digits => digits.foldl (fun acc c => 16 * acc + hexDigit c) 0

/-- Collaborators for the examples: addresses and hashes are read as hexadecimal
numbers, a receipt has failed when its status code is 0, the call-data is
taken as it is, `Unpack` keeps the fields already in the struct, `Emit`
succeeds, and each `ConvertDown` copies the decoded fields into a fresh event. -/
def exampleLib : Lib :=
  { HexToAddress := hexValue
    HexToHash := hexValue
    Failed := fun r _ => r.StatusCode == some 0
    MustDecode := fun bytes => some (bytes.drop 2)
    Unpack := fun _ v _ _ => ((v.map (·.fields)).getD [], none)
    Emit := fun _ _ => none
    getTopic := fun _ _ isEth => if isEth then "EthTransfer" else "Transfer"
    convertSubmitRing := fun _ =>
      (some { TxInfo := TxInfo.zero, OrderList := [], FeeReceipt := 0, FeeSelection := 0,
              Err := none }, none)
    convertCancelOrder := fun f =>
      (some { Protocol := 0, DelegateAddress := 0, TokenS := 0, TokenB := 0, AmountS := none,
              AmountB := none, Hash := 0, rest := f }, f.head?, none)
    convertCutoff := fun f =>
      some { TxInfo := TxInfo.zero, Owner := 0, Cutoff := f.head?, OrderHashList := [] }
    convertCutoffPair := fun f =>
      some { TxInfo := TxInfo.zero, Owner := 0, Token1 := (f.getD 0 0).toNat,
             Token2 := (f.getD 1 0).toNat, Cutoff := f.get? 2, OrderHashList := [] }
    convertApprove := fun f =>
      some { TxInfo := TxInfo.zero, Owner := 0, Spender := (f.getD 0 0).toNat,
             Amount := f.get? 1 }
    convertTransfer := fun f =>
      some { TxInfo := TxInfo.zero, Sender := 0, Receiver := (f.getD 0 0).toNat,
             Amount := f.get? 1 }
    convertWithdrawal := fun f =>
      some { TxInfo := TxInfo.zero, Src := 0, Amount := f.head? }
    GenerateHash := fun o => o.rest.length }

/-- An `approve` call as the dispatcher hands it to `handleMethod`: the context is
still the zero value, the payload struct decodes to spender `0xAAA` and amount
`100`. -/
def approveCall : MethodData :=
  { TxInfo := TxInfo.zero, Method := some ⟨.ApproveMethod, [0xAAA, 100]⟩, Abi := 0,
    Id := "0x095ea7b3", Name := METHOD_APPROVE }

/-- A transaction sent by `0xBBB` to the token contract `0x2`. -/
def approveTx : Transaction :=
  { Hash := "0xabc", Nonce := 7, BlockHash := "0xdef", BlockNumber := 100,
    TransactionIndex := 3, From := "0xBBB", To := "0x2", Value := 0, GasPrice := 9,
    Gas := 60000, Input := "0x095ea7b30aaa0064" }

/-- A plain value transfer of 50 from `0x1` to `0x2`. -/
def plainTx : Transaction :=
  { Hash := "0x123", Nonce := 1, BlockHash := "0xdef", BlockNumber := 100,
    TransactionIndex := 4, From := "0x1", To := "0x2", Value := 50, GasPrice := 9,
    Gas := 21000, Input := "0x" }

/-- A receipt of a successful execution. -/
def successReceipt : TransactionReceipt := { GasUsed := 21000, StatusCode := some 1 }

/-- A WETH `deposit` call: the method takes no argument, so the payload holds no
field. -/
def depositCall : MethodData :=
  { TxInfo := TxInfo.zero, Method := some ⟨.other, []⟩, Abi := 0, Id := "0xd0e30db0",
    Name := METHOD_WETH_DEPOSIT }

/-- A `cancelOrder` call with a payload of the asserted type. -/
def cancelOrderCall : MethodData :=
  { TxInfo := TxInfo.zero, Method := some ⟨.CancelOrderMethod, [25]⟩, Abi := 0,
    Id := "0x8c59f7ca", Name := METHOD_CANCEL_ORDER }

/-- An `approve` call whose context names `0xBBB` as the sender. -/
def approveFromBBB : MethodData :=
  { approveCall with TxInfo := { TxInfo.zero with From := 0xBBB } }

/-- A transaction like `approveTx` in a block whose index in the block is `2^63`,
one past the largest `int64`. -/
def largeIndexTx : Transaction := { approveTx with TransactionIndex := 2 ^ 63 }

/-- A `submitRing` call whose context records a failed execution. -/
def submitRingFailedCall : MethodData :=
  { TxInfo := { TxInfo.zero with Status := TX_STATUS_FAILED },
    Method := some ⟨.SubmitRingMethodInputs, []⟩, Abi := 0, Id := "0xe78aadb2",
    Name := METHOD_SUBMIT_RING }

/-- A `transfer` call whose payload pointer has the type of another method. -/
def transferMismatchCall : MethodData :=
  { TxInfo := TxInfo.zero, Method := some ⟨.ApproveMethod, [0xAAA, 100]⟩, Abi := 0,
    Id := "0xa9059cbb", Name := METHOD_TRANSFER }

/-- A transaction whose call-data is the six characters `0x0102`. -/
def shortInputTx : Transaction := { approveTx with Input := "0x0102" }

/-- A `cancelAllOrders` call from `0xBBB` with cutoff 1700000000. -/
def cutoffAllCall : MethodData :=
  { TxInfo := { TxInfo.zero with From := 0xBBB },
    Method := some ⟨.CutoffMethod, [1700000000]⟩, Abi := 0, Id := "0xbd545f53",
    Name := METHOD_CUTOFF_ALL }

/-- A `cancelAllOrdersByTradingPair` call from `0xBBB` for the tokens `0x11` and
`0x22` with cutoff 1700000000. -/
def cutoffPairCall : MethodData :=
  { TxInfo := { TxInfo.zero with From := 0xBBB },
    Method := some ⟨.CutoffPairMethod, [0x11, 0x22, 1700000000]⟩, Abi := 0,
    Id := "0x8865cbd6", Name := METHOD_CUTOFF_PAIR }

/-- A `transfer` call from `0xBBB` of 7 to `0xCCC`. -/
def transferCall : MethodData :=
  { TxInfo := { TxInfo.zero with From := 0xBBB },
    Method := some ⟨.TransferMethod, [0xCCC, 7]⟩, Abi := 0, Id := "0xa9059cbb",
    Name := METHOD_TRANSFER }

/-- A WETH `withdraw` call from `0xBBB` of 9. -/
def withdrawalCall : MethodData :=
  { TxInfo := { TxInfo.zero with From := 0xBBB },
    Method := some ⟨.WethWithdrawalMethod, [9]⟩, Abi := 0, Id := "0x2e1a7d4d",
    Name := METHOD_WETH_WITHDRAWAL }

/-- A call of a method the interface description knows but `afterUnpack` has no case
for. -/
def unknownCall : MethodData :=
  { TxInfo := TxInfo.zero, Method := some ⟨.other, []⟩, Abi := 0, Id := "0x12345678",
    Name := "balanceOf" }

/-- The collaborators of `exampleLib`, except that every `Emit` fails. -/
def failingEmitLib : Lib := { exampleLib with Emit := fun _ _ => some "emit failed" }

/-- A `cancelAllOrders` call whose CutoffMethod payload holds no decoded value, so
that its conversion yields an event with a nil `Cutoff`. -/
def cutoffAllNilCall : MethodData :=
  { cutoffAllCall with Method := some ⟨.CutoffMethod, []⟩ }

/-- A `cancelAllOrdersByTradingPair` call whose CutoffPairMethod payload holds the
two tokens but no cutoff, so that its conversion yields an event with a nil
`Cutoff`. -/
def cutoffPairNilCall : MethodData :=
  { cutoffPairCall with Method := some ⟨.CutoffPairMethod, [0x11, 0x22]⟩ }

/-! ## Lemmas shared by the theorems -/

theorem Int64_of_fitsInt64 (x : Int) (h : fitsInt64 x) : Int64 x = x := by
  unfold fitsInt64 at h
  unfold Int64 wrapInt64
  by_cases hx : x < 0
  · simp only [hx, if_true]
    omega
  · simp only [hx, if_false]
    omega

/-- Whatever event `afterUnpack` returns without error carries the context of the
`MethodData` it ran on. -/
theorem afterUnpack_event_context (L : Lib) (m : MethodData) (event : Event) (t : TxInfo)
    (h : afterUnpack L m = .ret (event, none)) (ht : event.txInfo = some t) :
    t = m.TxInfo := by
  unfold afterUnpack at h
  split_ifs at h
  · unfold fullFillSubmitRing at h
    split at h
    · split at h <;> simp [Exec.map] at h
      subst h
      simp [Event.txInfo] at ht
      split at ht <;> simp_all
    · simp [Exec.map] at h
  · unfold fullFillCancelOrder at h
    split at h
    · split at h <;> simp [Exec.map] at h
    · simp [Exec.map] at h
  · unfold fullFillCutoffAll at h
    split at h
    · split at h
      · simp [Exec.map] at h
      · dsimp only at h
        split at h <;> simp [Exec.map] at h
        subst h
        simp [Event.txInfo] at ht
        exact ht.symm
    · simp [Exec.map] at h
  · unfold fullFillCutoffPair at h
    split at h
    · split at h
      · simp [Exec.map] at h
      · dsimp only at h
        split at h <;> simp [Exec.map] at h
        subst h
        simp [Event.txInfo] at ht
        exact ht.symm
    · simp [Exec.map] at h
  · unfold fullFillApprove at h
    split at h
    · split at h <;> simp [Exec.map] at h
      subst h
      simp [Event.txInfo] at ht
      exact ht.symm
    · simp [Exec.map] at h
  · unfold fullFillTransfer at h
    split at h
    · split at h <;> simp [Exec.map] at h
      subst h
      simp [Event.txInfo] at ht
      exact ht.symm
    · simp [Exec.map] at h
  · simp [fullFillDeposit, Exec.map] at h
  · unfold fullFillWithdrawal at h
    split at h
    · split at h <;> simp [Exec.map] at h
      subst h
      simp [Event.txInfo] at ht
      exact ht.symm
    · simp [Exec.map] at h
  · simp at h
    subst h
    simp [Event.txInfo] at ht

/-- Whatever event `handleMethod` hands to `Emit` carries the context its receiver
`m` had on entry; the arguments `tx`, `gasUsed`, `blockTime`, `status` and
`methodName` do not reach it. -/
theorem handleMethod_emitted_context (L : Lib) (m : MethodData) (tx : Transaction)
    (gasUsed : BigInt) (blockTime : Int) (status : TxStatus) (methodName : String)
    (topic : String) (event : Event) (t : TxInfo)
    (hmem : (topic, event) ∈ (handleMethod L m tx gasUsed blockTime status methodName).emitted)
    (ht : event.txInfo = some t) : t = m.TxInfo := by
  unfold handleMethod at hmem
  cases hb : beforeUnpack L m tx gasUsed blockTime status methodName with
  | some err => simp [hb, Run.emitted] at hmem
  | none =>
    cases hu : unpack L m tx with
    | crash msg => simp [hb, hu, Run.emitted] at hmem
    | ret r =>
      obtain ⟨payload, uerr⟩ := r
      cases uerr with
      | some err => simp [hb, hu, Run.emitted] at hmem
      | none =>
        cases ha : afterUnpack L { m with Method := payload } with
        | crash msg => simp [hb, hu, ha, Run.emitted] at hmem
        | ret q =>
          obtain ⟨ev, aerr⟩ := q
          cases aerr with
          | some err => simp [hb, hu, ha, Run.emitted] at hmem
          | none =>
            simp [hb, hu, ha, Run.emitted] at hmem
            obtain ⟨_, hev⟩ := hmem
            subst hev
            exact afterUnpack_event_context L { m with Method := payload } event t ha ht

/-- With at least ten bytes of call-data, `unpack` drops exactly the first ten and
decodes `"0x"` followed by the rest; only the decoded rest reaches `Abi.Unpack`. -/
theorem unpack_strips_selector (L : Lib) (m : MethodData) (tx : Transaction)
    (h : 10 ≤ (goBytes tx.Input).length) :
    unpack L m tx =
      match L.MustDecode (goBytes "0x" ++ (goBytes tx.Input).drop 10) with
      | none => .crash "hexutil.MustDecode"
      | some data =>
        .ret (m.Method.map fun v => { v with fields := (L.Unpack m.Abi m.Method m.Name data).1 },
          (L.Unpack m.Abi m.Method m.Name data).2) := by
  have h2 : ¬ (goBytes tx.Input).length < 10 := by omega
  simp only [unpack, h2, if_false]

/-- The six converters with a checked type assertion return a nil event pointer and
a type error when the payload has another type. -/
theorem checked_converters_mismatch (L : Lib) (m : MethodData) :
    ((∀ src, m.Method ≠ some ⟨.SubmitRingMethodInputs, src⟩) →
      fullFillSubmitRing L m = .ret (none, some "submitRing method inputs type error")) ∧
    ((∀ src, m.Method ≠ some ⟨.CancelOrderMethod, src⟩) →
      fullFillCancelOrder L m = .ret (none, some "cancelOrder method inputs type error")) ∧
    ((∀ src, m.Method ≠ some ⟨.CutoffMethod, src⟩) →
      fullFillCutoffAll L m = .ret (none, some "cutoffAll method inputs type error")) ∧
    ((∀ src, m.Method ≠ some ⟨.CutoffPairMethod, src⟩) →
      fullFillCutoffPair L m = .ret (none, some "cutoffPair method inputs type error")) ∧
    ((∀ src, m.Method ≠ some ⟨.ApproveMethod, src⟩) →
      fullFillApprove L m = .ret (none, some "approve method inputs type error")) ∧
    ((∀ src, m.Method ≠ some ⟨.WethWithdrawalMethod, src⟩) →
      fullFillWithdrawal L m = .ret (none, some "wethWithdrawal method inputs type error")) := by
  refine ⟨?_, ?_, ?_, ?_, ?_, ?_⟩
  · intro h
    unfold fullFillSubmitRing
    split
    · rename_i src hs
      exact absurd hs (h src)
    · rfl
  · intro h
    unfold fullFillCancelOrder
    split
    · rename_i src hs
      exact absurd hs (h src)
    · rfl
  · intro h
    unfold fullFillCutoffAll
    split
    · rename_i src hs
      exact absurd hs (h src)
    · rfl
  · intro h
    unfold fullFillCutoffPair
    split
    · rename_i src hs
      exact absurd hs (h src)
    · rfl
  · intro h
    unfold fullFillApprove
    split
    · rename_i src hs
      exact absurd hs (h src)
    · rfl
  · intro h
    unfold fullFillWithdrawal
    split
    · rename_i src hs
      exact absurd hs (h src)
    · rfl

/-! ## Theorems -/

/-- C2: `getStatus` is `Pending` without a receipt, `Failed` with a receipt whose
`Failed(tx)` is true, `Success` with a receipt whose `Failed(tx)` is false, and
never any other status. -/
theorem getStatus_table (L : Lib) (tx : Transaction) :
    getStatus L tx none = TX_STATUS_PENDING ∧
    (∀ r, L.Failed r tx = true → getStatus L tx (some r) = TX_STATUS_FAILED) ∧
    (∀ r, L.Failed r tx = false → getStatus L tx (some r) = TX_STATUS_SUCCESS) ∧
    (∀ receipt, getStatus L tx receipt = TX_STATUS_PENDING ∨
      getStatus L tx receipt = TX_STATUS_FAILED ∨
      getStatus L tx receipt = TX_STATUS_SUCCESS) := by
  refine ⟨rfl, ?_, ?_, ?_⟩
  · intro r h
    simp [getStatus, h]
  · intro r h
    simp [getStatus, h]
  · intro receipt
    cases receipt with
    | none => exact Or.inl rfl
    | some r =>
      by_cases h : L.Failed r tx = true
      · exact Or.inr (Or.inl (by simp [getStatus, h]))
      · exact Or.inr (Or.inr (by simp [getStatus, h]))

/-- C3: for a method name outside the eight handled ones, `afterUnpack` returns the
nil event and the nil error. -/
theorem afterUnpack_unhandled (L : Lib) (m : MethodData) (h : m.Name ∉ handledMethods) :
    afterUnpack L m = .ret (.nil, none) := by
  simp only [handledMethods, List.mem_cons, List.mem_singleton, List.not_mem_nil, or_false,
    not_or] at h
  obtain ⟨h1, h2, h3, h4, h5, h6, h7, h8⟩ := h
  simp [afterUnpack, h1, h2, h3, h4, h5, h6, h7, h8]

/-- Witness of C3 at the method name `"foo"`. -/
theorem afterUnpack_unhandled_witness :
    ({ approveCall with Name := "foo" } : MethodData).Name ∉ handledMethods ∧
    afterUnpack exampleLib { approveCall with Name := "foo" } = .ret (.nil, none) :=
  ⟨by decide, afterUnpack_unhandled exampleLib { approveCall with Name := "foo" } (by decide)⟩

/-- C1 (the code departs from the claim): on the `approve` call `approveCall`, where
precheck, unpack and conversion all succeed, the one event handed to `Emit`
carries the context the receiver already had (the zero value), not the
context `beforeUnpack` built from `setTxInfo`, `status` and log index 0. -/
theorem handleMethod_publishes_receiver_context :
    beforeUnpack exampleLib approveCall approveTx (some 5) 1000 TX_STATUS_SUCCESS
        METHOD_APPROVE = none ∧
    (beforeUnpackLocal exampleLib approveCall approveTx (some 5) 1000 TX_STATUS_SUCCESS
        METHOD_APPROVE).TxInfo =
      { setTxInfo exampleLib approveTx (some 5) 1000 METHOD_APPROVE with
        TxLogIndex := 0, Status := TX_STATUS_SUCCESS } ∧
    (handleMethod exampleLib approveCall approveTx (some 5) 1000 TX_STATUS_SUCCESS
        METHOD_APPROVE).emitted =
      [(METHOD_APPROVE,
        .approval (some { TxInfo := TxInfo.zero, Owner := 0, Spender := 0xAAA,
                          Amount := some 100 }))] ∧
    TxInfo.zero ≠
      { setTxInfo exampleLib approveTx (some 5) 1000 METHOD_APPROVE with
        TxLogIndex := 0, Status := TX_STATUS_SUCCESS } := by
  refine ⟨by decide, by decide, by decide, by decide⟩

/-- C4 (the code departs from the claim): for the handled names WETH deposit (any
payload) and cancelOrder (payload of the asserted type) `afterUnpack` panics
on a nil pointer instead of returning an event. -/
theorem afterUnpack_deposit_cancelOrder_crash (L : Lib) (m : MethodData)
    (h : m.Name = METHOD_WETH_DEPOSIT ∨
      (m.Name = METHOD_CANCEL_ORDER ∧ ∃ src, m.Method = some ⟨.CancelOrderMethod, src⟩)) :
    afterUnpack L m = .crash nilDereference := by
  rcases h with h | ⟨h, src, hsrc⟩
  · have e : afterUnpack L m = (fullFillDeposit m).map fun r => (.wethDeposit r.1, r.2) := by
      simp [afterUnpack, h, METHOD_WETH_DEPOSIT, METHOD_SUBMIT_RING, METHOD_CANCEL_ORDER,
        METHOD_CUTOFF_ALL, METHOD_CUTOFF_PAIR, METHOD_APPROVE, METHOD_TRANSFER]
    rw [e]
    rfl
  · have e : afterUnpack L m =
        (fullFillCancelOrder L m).map fun r => (.orderCancelled r.1, r.2) := by
      simp [afterUnpack, h, METHOD_SUBMIT_RING, METHOD_CANCEL_ORDER]
    rw [e]
    unfold fullFillCancelOrder
    rw [hsrc]
    rcases hc : L.convertCancelOrder src with ⟨_ | order, amount, err⟩ <;> simp [hc, Exec.map]

/-- Witness of C4: the deposit call and the cancelOrder call both make
`afterUnpack` panic. -/
theorem afterUnpack_deposit_cancelOrder_crash_witness :
    afterUnpack exampleLib depositCall = .crash nilDereference ∧
    afterUnpack exampleLib cancelOrderCall = .crash nilDereference :=
  ⟨afterUnpack_deposit_cancelOrder_crash exampleLib depositCall (Or.inl rfl),
   afterUnpack_deposit_cancelOrder_crash exampleLib cancelOrderCall
     (Or.inr ⟨rfl, [25], rfl⟩)⟩

/-- C5: for a cancelOrder method whose built context has the nil delegate address,
`handleMethod` returns the precheck error without entering `unpack` or
`afterUnpack` and without calling `Emit`. -/
theorem handleMethod_cancelOrder_precheck (L : Lib) (m : MethodData) (tx : Transaction)
    (gasUsed : BigInt) (blockTime : Int) (status : TxStatus) (methodName : String)
    (hName : m.Name = METHOD_CANCEL_ORDER)
    (hNil : (beforeUnpackLocal L m tx gasUsed blockTime status methodName).TxInfo.DelegateAddress
      = NilAddress) :
    handleMethod L m tx gasUsed blockTime status methodName =
      { calls := [], result := .ret (some "cancelOrder method cann't get delegate address") } := by
  have hb : beforeUnpack L m tx gasUsed blockTime status methodName =
      some "cancelOrder method cann't get delegate address" := by
    have hn : (beforeUnpackLocal L m tx gasUsed blockTime status methodName).Name =
        METHOD_CANCEL_ORDER := hName
    simp only [beforeUnpack, hn, hNil, if_true]
  simp only [handleMethod, hb]

/-- Witness of C5 at the cancelOrder call `cancelOrderCall`. -/
theorem handleMethod_cancelOrder_precheck_witness :
    cancelOrderCall.Name = METHOD_CANCEL_ORDER ∧
    (beforeUnpackLocal exampleLib cancelOrderCall approveTx (some 5) 1000 TX_STATUS_SUCCESS
      METHOD_CANCEL_ORDER).TxInfo.DelegateAddress = NilAddress ∧
    handleMethod exampleLib cancelOrderCall approveTx (some 5) 1000 TX_STATUS_SUCCESS
      METHOD_CANCEL_ORDER =
      { calls := [], result := .ret (some "cancelOrder method cann't get delegate address") } :=
  ⟨rfl, rfl, handleMethod_cancelOrder_precheck exampleLib cancelOrderCall approveTx (some 5) 1000
    TX_STATUS_SUCCESS METHOD_CANCEL_ORDER rfl rfl⟩

/-- C6: an error of `beforeUnpack`, `unpack` or `afterUnpack` is what `handleMethod`
returns, with nothing handed to `Emit`; and no run of `handleMethod` hands more
than one event to `Emit`. -/
theorem handleMethod_error_propagation (L : Lib) (m : MethodData) (tx : Transaction)
    (gasUsed : BigInt) (blockTime : Int) (status : TxStatus) (methodName : String) :
    (∀ err, beforeUnpack L m tx gasUsed blockTime status methodName = some err →
      (handleMethod L m tx gasUsed blockTime status methodName).result = .ret (some err) ∧
      (handleMethod L m tx gasUsed blockTime status methodName).emitted = []) ∧
    (∀ payload err, beforeUnpack L m tx gasUsed blockTime status methodName = none →
      unpack L m tx = .ret (payload, some err) →
      (handleMethod L m tx gasUsed blockTime status methodName).result = .ret (some err) ∧
      (handleMethod L m tx gasUsed blockTime status methodName).emitted = []) ∧
    (∀ payload event err, beforeUnpack L m tx gasUsed blockTime status methodName = none →
      unpack L m tx = .ret (payload, none) →
      afterUnpack L { m with Method := payload } = .ret (event, some err) →
      (handleMethod L m tx gasUsed blockTime status methodName).result = .ret (some err) ∧
      (handleMethod L m tx gasUsed blockTime status methodName).emitted = []) ∧
    (handleMethod L m tx gasUsed blockTime status methodName).emitted.length ≤ 1 := by
  refine ⟨?_, ?_, ?_, ?_⟩
  · intro err hb
    simp [handleMethod, hb, Run.emitted]
  · intro payload err hb hu
    simp [handleMethod, hb, hu, Run.emitted]
  · intro payload event err hb hu ha
    simp [handleMethod, hb, hu, ha, Run.emitted]
  · unfold handleMethod
    cases hb : beforeUnpack L m tx gasUsed blockTime status methodName with
    | some err => simp [Run.emitted]
    | none =>
      cases hu : unpack L m tx with
      | crash msg => simp [Run.emitted]
      | ret r =>
        obtain ⟨payload, uerr⟩ := r
        cases uerr with
        | some err => simp [Run.emitted]
        | none =>
          cases ha : afterUnpack L { m with Method := payload } with
          | crash msg => simp [ha, Run.emitted]
          | ret q =>
            obtain ⟨event, aerr⟩ := q
            cases aerr with
            | some err => simp [ha, Run.emitted]
            | none => simp [ha, Run.emitted]

/-- C7: `handleEthTransfer` makes exactly one call, an `Emit` under the topic
`getTopic("", false, true)` of a Transfer event with sender `tx.From`, receiver
`tx.To`, amount `tx.Value`, status `getStatus(tx, receipt)`, method identifier
`METHOD_UNKNOWN`, gas used `getGasUsed(receipt)` and log index 0. -/
theorem handleEthTransfer_publishes (L : Lib) (tx : Transaction)
    (receipt : Option TransactionReceipt) (time : Int) :
    ∃ dst : TransferEvent,
      (handleEthTransfer L tx receipt time).calls =
        [.Emit (L.getTopic "" false true) (.transferRef dst)] ∧
      dst.Sender = L.HexToAddress tx.From ∧
      dst.Receiver = L.HexToAddress tx.To ∧
      dst.Amount = some tx.Value ∧
      dst.TxInfo.Status = getStatus L tx receipt ∧
      dst.TxInfo.Identify = METHOD_UNKNOWN ∧
      dst.TxInfo.GasUsed = getGasUsed receipt ∧
      dst.TxInfo.TxLogIndex = 0 :=
  ⟨_, rfl, rfl, rfl, rfl, rfl, rfl, rfl, rfl⟩

/-- Witness of C7 (scenario B): value 50 from `0x1` to `0x2` with a successful
receipt is published once as a Transfer with sender `0x1`, receiver `0x2`,
amount 50 and status Success. -/
theorem handleEthTransfer_publishes_witness :
    ∃ dst : TransferEvent,
      (handleEthTransfer exampleLib plainTx (some successReceipt) 1000).calls =
        [.Emit (exampleLib.getTopic "" false true) (.transferRef dst)] ∧
      dst.Sender = 0x1 ∧ dst.Receiver = 0x2 ∧ dst.Amount = some 50 ∧
      dst.TxInfo.Status = TX_STATUS_SUCCESS := by
  obtain ⟨dst, hc, hs, hr, ha, hst, _, _, _⟩ :=
    handleEthTransfer_publishes exampleLib plainTx (some successReceipt) 1000
  exact ⟨dst, hc, hs.trans (by decide), hr.trans (by decide), ha, hst.trans (by decide)⟩

/-- C8 (as amended): when `blockTime` and `tx.TransactionIndex` fit an `int64`, the
context built by `setTxInfo` mirrors the transaction field by field, with
`GasUsed = gasUsed`, `BlockTime = blockTime` and `Identify = methodName`. -/
theorem setTxInfo_mirror (L : Lib) (tx : Transaction) (gasUsed : BigInt) (blockTime : Int)
    (methodName : String) (hTime : fitsInt64 blockTime)
    (hIndex : fitsInt64 tx.TransactionIndex) :
    (setTxInfo L tx gasUsed blockTime methodName).From = L.HexToAddress tx.From ∧
    (setTxInfo L tx gasUsed blockTime methodName).To = L.HexToAddress tx.To ∧
    (setTxInfo L tx gasUsed blockTime methodName).Protocol = L.HexToAddress tx.To ∧
    (setTxInfo L tx gasUsed blockTime methodName).Value = some tx.Value ∧
    (setTxInfo L tx gasUsed blockTime methodName).Nonce = some tx.Nonce ∧
    (setTxInfo L tx gasUsed blockTime methodName).GasLimit = some tx.Gas ∧
    (setTxInfo L tx gasUsed blockTime methodName).GasPrice = some tx.GasPrice ∧
    (setTxInfo L tx gasUsed blockTime methodName).BlockNumber = some tx.BlockNumber ∧
    (setTxInfo L tx gasUsed blockTime methodName).BlockHash = L.HexToHash tx.BlockHash ∧
    (setTxInfo L tx gasUsed blockTime methodName).TxHash = L.HexToHash tx.Hash ∧
    (setTxInfo L tx gasUsed blockTime methodName).TxIndex = tx.TransactionIndex ∧
    (setTxInfo L tx gasUsed blockTime methodName).GasUsed = gasUsed ∧
    (setTxInfo L tx gasUsed blockTime methodName).BlockTime = blockTime ∧
    (setTxInfo L tx gasUsed blockTime methodName).Identify = methodName :=
  ⟨rfl, rfl, rfl, rfl, rfl, rfl, rfl, rfl, rfl, rfl, Int64_of_fitsInt64 _ hIndex, rfl,
    Int64_of_fitsInt64 _ hTime, rfl⟩

/-- Witness of C8 (as amended) at the transaction `approveTx` and block time 1000. -/
theorem setTxInfo_mirror_witness :
    fitsInt64 1000 ∧ fitsInt64 approveTx.TransactionIndex ∧
    (setTxInfo exampleLib approveTx (some 5) 1000 METHOD_APPROVE).From = 0xBBB ∧
    (setTxInfo exampleLib approveTx (some 5) 1000 METHOD_APPROVE).TxIndex = 3 ∧
    (setTxInfo exampleLib approveTx (some 5) 1000 METHOD_APPROVE).BlockTime = 1000 :=
  have h := setTxInfo_mirror exampleLib approveTx (some 5) 1000 METHOD_APPROVE
    (by decide) (by decide)
  ⟨by decide, by decide, h.1.trans (by decide), h.2.2.2.2.2.2.2.2.2.2.1,
    h.2.2.2.2.2.2.2.2.2.2.2.2.1⟩

/-- C8 (counterexample to the claim as stated): a block time of `2^63` is stored as
`-2^63`, and a transaction index of `2^63` likewise, so the context does not
mirror them. -/
theorem setTxInfo_int64_wraps :
    (setTxInfo exampleLib approveTx (some 5) (2 ^ 63) METHOD_APPROVE).BlockTime = -(2 ^ 63) ∧
    (setTxInfo exampleLib approveTx (some 5) (2 ^ 63) METHOD_APPROVE).BlockTime ≠ 2 ^ 63 ∧
    (setTxInfo exampleLib largeIndexTx (some 5) 1000 METHOD_APPROVE).TxIndex ≠
      largeIndexTx.TransactionIndex := by
  refine ⟨by decide, by decide, by decide⟩

/-- C9 (the code departs from the claim): `fullFillDeposit` panics on every call,
because it assigns through its result pointer `event` while that is nil; it
returns no WethDepositEvent. -/
theorem fullFillDeposit_crashes (m : MethodData) :
    fullFillDeposit m = .crash nilDereference := rfl

/-- C10: for an ApproveMethod payload converting to an event with the given spender
and amount, `fullFillApprove` returns, with a nil error, that event with
`Owner = m.From`, the same spender and amount, and `TxInfo = m.TxInfo`. -/
theorem fullFillApprove_event (L : Lib) (m : MethodData) (src : Fields)
    (decoded : ApprovalEvent) (spender : Address) (amount : BigInt)
    (hMethod : m.Method = some ⟨.ApproveMethod, src⟩)
    (hConvert : L.convertApprove src = some decoded)
    (hSpender : decoded.Spender = spender) (hAmount : decoded.Amount = amount) :
    fullFillApprove L m =
      .ret (some { TxInfo := m.TxInfo, Owner := m.TxInfo.From, Spender := spender,
                   Amount := amount }, none) := by
  subst hSpender hAmount
  simp [fullFillApprove, hMethod, hConvert]

/-- Witness of C10 (scenario A): decoded spender `0xAAA` and amount 100 with sender
`0xBBB` give Approval with owner `0xBBB`, spender `0xAAA`, amount 100. -/
theorem fullFillApprove_event_witness :
    fullFillApprove exampleLib approveFromBBB =
      .ret (some { TxInfo := approveFromBBB.TxInfo, Owner := 0xBBB, Spender := 0xAAA,
                   Amount := some 100 }, none) :=
  fullFillApprove_event exampleLib approveFromBBB [0xAAA, 100]
    { TxInfo := TxInfo.zero, Owner := 0, Spender := 0xAAA, Amount := some 100 } 0xAAA (some 100)
    rfl rfl rfl rfl

/-- C11: for a SubmitRingMethodInputs payload whose conversion succeeds,
`fullFillSubmitRing` returns the converted event with `TxInfo = m.TxInfo` and a
nil error; when `m.Status` is Failed the event has status Failed and a non-nil
failure note `Err`, otherwise `Err` is left as converted. -/
theorem fullFillSubmitRing_event (L : Lib) (m : MethodData) (src : Fields)
    (decoded : SubmitRingMethodEvent)
    (hMethod : m.Method = some ⟨.SubmitRingMethodInputs, src⟩)
    (hConvert : L.convertSubmitRing src = (some decoded, none)) :
    ∃ event : SubmitRingMethodEvent,
      fullFillSubmitRing L m = .ret (some event, none) ∧
      event.TxInfo = m.TxInfo ∧
      event.OrderList = decoded.OrderList ∧
      event.FeeReceipt = decoded.FeeReceipt ∧
      event.FeeSelection = decoded.FeeSelection ∧
      (m.TxInfo.Status = TX_STATUS_FAILED →
        event.TxInfo.Status = TX_STATUS_FAILED ∧
        event.Err = some "method submitRing transaction failed") ∧
      (m.TxInfo.Status ≠ TX_STATUS_FAILED → event.Err = decoded.Err) := by
  by_cases hs : m.TxInfo.Status = TX_STATUS_FAILED
  · refine ⟨{ decoded with TxInfo := m.TxInfo,
                           Err := some "method submitRing transaction failed" }, ?_, rfl, rfl,
      rfl, rfl, fun _ => ⟨hs, rfl⟩, fun h => absurd hs h⟩
    simp [fullFillSubmitRing, hMethod, hConvert, hs, METHOD_SUBMIT_RING]
  · refine ⟨{ decoded with TxInfo := m.TxInfo }, ?_, rfl, rfl, rfl, rfl,
      fun h => absurd h hs, fun _ => rfl⟩
    simp [fullFillSubmitRing, hMethod, hConvert, hs]

/-- Witness of C11 (scenario C): a submitRing call whose context status is Failed
yields an event with status Failed and a failure note. -/
theorem fullFillSubmitRing_event_witness :
    ∃ event : SubmitRingMethodEvent,
      fullFillSubmitRing exampleLib submitRingFailedCall = .ret (some event, none) ∧
      event.TxInfo = submitRingFailedCall.TxInfo ∧
      event.TxInfo.Status = TX_STATUS_FAILED ∧
      event.Err = some "method submitRing transaction failed" := by
  obtain ⟨event, hr, ht, _, _, _, hf, _⟩ :=
    fullFillSubmitRing_event exampleLib submitRingFailedCall []
      { TxInfo := TxInfo.zero, OrderList := [], FeeReceipt := 0, FeeSelection := 0,
        Err := none } rfl rfl
  exact ⟨event, hr, ht, (hf rfl).1, (hf rfl).2⟩

/-- C12 (the code departs from the claim): for the handled name transfer and a
payload that is not a TransferMethod, `afterUnpack` panics on the unchecked
type assertion instead of returning a type error. -/
theorem afterUnpack_transfer_mismatch_crashes (L : Lib) (m : MethodData)
    (hName : m.Name = METHOD_TRANSFER)
    (hShape : ∀ src, m.Method ≠ some ⟨.TransferMethod, src⟩) :
    afterUnpack L m =
      .crash "interface conversion: interface {} is not *contract.TransferMethod" := by
  have e : afterUnpack L m = (fullFillTransfer L m).map fun r => (.transfer r.1, r.2) := by
    simp [afterUnpack, hName, METHOD_TRANSFER, METHOD_SUBMIT_RING, METHOD_CANCEL_ORDER,
      METHOD_CUTOFF_ALL, METHOD_CUTOFF_PAIR, METHOD_APPROVE]
  rw [e]
  unfold fullFillTransfer
  split
  · rename_i src hs
    exact absurd hs (hShape src)
  · rfl

/-- Witness of C12: a transfer call carrying an ApproveMethod payload makes
`afterUnpack` panic. -/
theorem afterUnpack_transfer_mismatch_crashes_witness :
    transferMismatchCall.Name = METHOD_TRANSFER ∧
    (∀ src, transferMismatchCall.Method ≠ some ⟨.TransferMethod, src⟩) ∧
    afterUnpack exampleLib transferMismatchCall =
      .crash "interface conversion: interface {} is not *contract.TransferMethod" :=
  ⟨rfl, fun _ h => by simp [transferMismatchCall] at h,
    afterUnpack_transfer_mismatch_crashes exampleLib transferMismatchCall rfl
      (fun _ h => by simp [transferMismatchCall] at h)⟩

/-- C13 (the code departs from the claim): on call-data shorter than ten bytes
`unpack` panics on the slice `tx.Input[10:]`; it returns no decode error. -/
theorem unpack_short_input_crashes (L : Lib) (m : MethodData) (tx : Transaction)
    (hShort : (goBytes tx.Input).length < 10) :
    unpack L m tx = .crash "slice bounds out of range" := by
  simp only [unpack, hShort, if_true]

/-- Witness of C13: the six-character call-data `0x0102` makes `unpack` panic. -/
theorem unpack_short_input_crashes_witness :
    (goBytes shortInputTx.Input).length < 10 ∧
    unpack exampleLib approveCall shortInputTx = .crash "slice bounds out of range" :=
  ⟨by decide, unpack_short_input_crashes exampleLib approveCall shortInputTx (by decide)⟩

/-- C14 (counterexample to the claim as stated): a payload of the matching type
whose conversion yields an event with a nil `Cutoff` makes `fullFillCutoffAll`
and `fullFillCutoffPair` panic, in the log call that reads
`event.Cutoff.Int64()`; no event and no nil error are returned. -/
theorem converters_cutoff_nil_crash :
    (∃ decoded, cutoffAllNilCall.Method = some ⟨.CutoffMethod, []⟩ ∧
      exampleLib.convertCutoff [] = some decoded ∧ decoded.Cutoff = none) ∧
    fullFillCutoffAll exampleLib cutoffAllNilCall = .crash nilDereference ∧
    (∃ decoded, cutoffPairNilCall.Method = some ⟨.CutoffPairMethod, [0x11, 0x22]⟩ ∧
      exampleLib.convertCutoffPair [0x11, 0x22] = some decoded ∧ decoded.Cutoff = none) ∧
    fullFillCutoffPair exampleLib cutoffPairNilCall = .crash nilDereference :=
  ⟨⟨_, rfl, rfl, rfl⟩, by decide, ⟨_, rfl, rfl, rfl⟩, by decide⟩

/-- C14 (as amended): with a payload of the matching type whose conversion yields an
event (for the two cutoff methods, one with a non-nil cutoff), `fullFillCutoffAll`,
`fullFillCutoffPair`, `fullFillTransfer` and `fullFillWithdrawal` return, with a
nil error, the converted event changed in two places only: `TxInfo` is
`m.TxInfo`, and the party field (`Owner`, `Owner`, `Sender`, `Src`) is `m.From`. -/
theorem converters_party_from_context (L : Lib) (m : MethodData) :
    (∀ src decoded cutoff, m.Method = some ⟨.CutoffMethod, src⟩ →
      L.convertCutoff src = some decoded → decoded.Cutoff = some cutoff →
      fullFillCutoffAll L m =
        .ret (some { decoded with TxInfo := m.TxInfo, Owner := m.TxInfo.From }, none)) ∧
    (∀ src decoded cutoff, m.Method = some ⟨.CutoffPairMethod, src⟩ →
      L.convertCutoffPair src = some decoded → decoded.Cutoff = some cutoff →
      fullFillCutoffPair L m =
        .ret (some { decoded with TxInfo := m.TxInfo, Owner := m.TxInfo.From }, none)) ∧
    (∀ src decoded, m.Method = some ⟨.TransferMethod, src⟩ →
      L.convertTransfer src = some decoded →
      fullFillTransfer L m =
        .ret (some { decoded with TxInfo := m.TxInfo, Sender := m.TxInfo.From }, none)) ∧
    (∀ src decoded, m.Method = some ⟨.WethWithdrawalMethod, src⟩ →
      L.convertWithdrawal src = some decoded →
      fullFillWithdrawal L m =
        .ret (some { decoded with TxInfo := m.TxInfo, Src := m.TxInfo.From }, none)) := by
  refine ⟨?_, ?_, ?_, ?_⟩
  · intro src decoded cutoff hm hc hcut
    simp [fullFillCutoffAll, hm, hc, hcut]
  · intro src decoded cutoff hm hc hcut
    simp [fullFillCutoffPair, hm, hc, hcut]
  · intro src decoded hm hc
    simp [fullFillTransfer, hm, hc]
  · intro src decoded hm hc
    simp [fullFillWithdrawal, hm, hc]

/-- Witness of C14: four calls sent by `0xBBB`; each returned event names `0xBBB` as
its party and keeps the decoded values. -/
theorem converters_party_from_context_witness :
    fullFillCutoffAll exampleLib cutoffAllCall =
      .ret (some { TxInfo := cutoffAllCall.TxInfo, Owner := 0xBBB,
                   Cutoff := some 1700000000, OrderHashList := [] }, none) ∧
    fullFillCutoffPair exampleLib cutoffPairCall =
      .ret (some { TxInfo := cutoffPairCall.TxInfo, Owner := 0xBBB, Token1 := 0x11,
                   Token2 := 0x22, Cutoff := some 1700000000, OrderHashList := [] }, none) ∧
    fullFillTransfer exampleLib transferCall =
      .ret (some { TxInfo := transferCall.TxInfo, Sender := 0xBBB, Receiver := 0xCCC,
                   Amount := some 7 }, none) ∧
    fullFillWithdrawal exampleLib withdrawalCall =
      .ret (some { TxInfo := withdrawalCall.TxInfo, Src := 0xBBB, Amount := some 9 }, none) :=
  ⟨(converters_party_from_context exampleLib cutoffAllCall).1 [1700000000]
      { TxInfo := TxInfo.zero, Owner := 0, Cutoff := some 1700000000, OrderHashList := [] }
      1700000000 rfl rfl rfl,
   (converters_party_from_context exampleLib cutoffPairCall).2.1 [0x11, 0x22, 1700000000]
      { TxInfo := TxInfo.zero, Owner := 0, Token1 := 0x11, Token2 := 0x22,
        Cutoff := some 1700000000, OrderHashList := [] }
      1700000000 rfl rfl rfl,
   (converters_party_from_context exampleLib transferCall).2.2.1 [0xCCC, 7]
      { TxInfo := TxInfo.zero, Sender := 0, Receiver := 0xCCC, Amount := some 7 } rfl rfl,
   (converters_party_from_context exampleLib withdrawalCall).2.2.2 [9]
      { TxInfo := TxInfo.zero, Src := 0, Amount := some 9 } rfl rfl⟩

/-- C15 (the code departs from the claim): with a CancelOrderMethod payload
`fullFillCancelOrder` panics on a nil pointer (at the latest when its log call
reads `event.TxHash` from the never-assigned result `event`); it returns no
OrderCancelledEvent. -/
theorem fullFillCancelOrder_crashes (L : Lib) (m : MethodData) (src : Fields)
    (hMethod : m.Method = some ⟨.CancelOrderMethod, src⟩) :
    fullFillCancelOrder L m = .crash nilDereference := by
  unfold fullFillCancelOrder
  rw [hMethod]
  rcases hc : L.convertCancelOrder src with ⟨_ | order, amount, err⟩ <;> simp [hc]

/-- Witness of C15 at the cancelOrder call `cancelOrderCall`, whose payload converts
to an order and the cancelled amount 25. -/
theorem fullFillCancelOrder_crashes_witness :
    cancelOrderCall.Method = some ⟨.CancelOrderMethod, [25]⟩ ∧
    (exampleLib.convertCancelOrder [25]).2.1 = some 25 ∧
    fullFillCancelOrder exampleLib cancelOrderCall = .crash nilDereference :=
  ⟨rfl, rfl, fullFillCancelOrder_crashes exampleLib cancelOrderCall [25] rfl⟩

/-- C16 (the code departs from the claim): for a method name outside the handled
set `handleMethod` still calls `Emit`. Whenever `unpack` succeeds it hands the
nil event to `Emit` once under the topic `m.Name` and returns the result of
that call; only when `unpack` fails or panics is nothing published. -/
theorem handleMethod_unhandled (L : Lib) (m : MethodData) (tx : Transaction)
    (gasUsed : BigInt) (blockTime : Int) (status : TxStatus) (methodName : String)
    (hName : m.Name ∉ handledMethods) :
    handleMethod L m tx gasUsed blockTime status methodName =
      match unpack L m tx with
      | .crash msg => { calls := [.unpack], result := .crash msg }
      | .ret (_, some err) => { calls := [.unpack], result := .ret (some err) }
      | .ret (_, none) =>
        { calls := [.unpack, .afterUnpack, .Emit m.Name .nil],
          result := .ret (L.Emit m.Name .nil) } := by
  have hn := hName
  simp only [handledMethods, List.mem_cons, List.mem_singleton, List.not_mem_nil, or_false,
    not_or] at hn
  obtain ⟨h1, h2, h3, h4, h5, h6, h7, h8⟩ := hn
  have hb : beforeUnpack L m tx gasUsed blockTime status methodName = none := by
    have hl : (beforeUnpackLocal L m tx gasUsed blockTime status methodName).Name = m.Name :=
      rfl
    simp only [beforeUnpack, hl, h2, if_false]
  have ha : ∀ payload, afterUnpack L { m with Method := payload } = .ret (.nil, none) := by
    intro payload
    simp [afterUnpack, h1, h2, h3, h4, h5, h6, h7, h8]
  cases hu : unpack L m tx with
  | crash msg => simp only [handleMethod, hb, hu]
  | ret r =>
    obtain ⟨payload, uerr⟩ := r
    cases uerr with
    | some err => simp only [handleMethod, hb, hu]
    | none => simp only [handleMethod, hb, hu, ha payload]

/-- Witness of C16: for the unhandled name `balanceOf`, with call-data that unpacks
without error, `handleMethod` calls `Emit` once with the nil event. -/
theorem handleMethod_unhandled_witness :
    unknownCall.Name ∉ handledMethods ∧
    unpack exampleLib unknownCall approveTx = .ret (some ⟨.other, []⟩, none) ∧
    handleMethod exampleLib unknownCall approveTx (some 5) 1000 TX_STATUS_SUCCESS "balanceOf" =
      { calls := [.unpack, .afterUnpack, .Emit "balanceOf" .nil],
        result := .ret (exampleLib.Emit "balanceOf" .nil) } ∧
    (handleMethod exampleLib unknownCall approveTx (some 5) 1000 TX_STATUS_SUCCESS
      "balanceOf").emitted = [("balanceOf", .nil)] :=
  ⟨by decide, by decide,
    (handleMethod_unhandled exampleLib unknownCall approveTx (some 5) 1000 TX_STATUS_SUCCESS
      "balanceOf" (by decide)).trans (by decide),
    by decide⟩

/-- C17: `getGasUsed` is zero without a receipt and the receipt's `GasUsed` with
one. -/
theorem getGasUsed_table :
    getGasUsed none = some 0 ∧ ∀ r : TransactionReceipt, getGasUsed (some r) = some r.GasUsed :=
  ⟨rfl, fun _ => rfl⟩

/-- C18: `setTxInfo` leaves `DelegateAddress` at the nil address, so for every
cancelOrder method and every transaction, gas, block time, status and method
name `handleMethod` returns the precheck error having entered neither `unpack`
nor `afterUnpack` and published nothing. -/
theorem handleMethod_cancelOrder_never_decodes (L : Lib) (m : MethodData) (tx : Transaction)
    (gasUsed : BigInt) (blockTime : Int) (status : TxStatus) (methodName : String)
    (hName : m.Name = METHOD_CANCEL_ORDER) :
    (setTxInfo L tx gasUsed blockTime methodName).DelegateAddress = NilAddress ∧
    handleMethod L m tx gasUsed blockTime status methodName =
      { calls := [], result := .ret (some "cancelOrder method cann't get delegate address") } := by
  refine ⟨rfl, ?_⟩
  have hn : (beforeUnpackLocal L m tx gasUsed blockTime status methodName).Name =
      METHOD_CANCEL_ORDER := hName
  have hd : (beforeUnpackLocal L m tx gasUsed blockTime status methodName).TxInfo.DelegateAddress
      = NilAddress := rfl
  have hb : beforeUnpack L m tx gasUsed blockTime status methodName =
      some "cancelOrder method cann't get delegate address" := by
    simp only [beforeUnpack, hn, hd, if_true]
  simp only [handleMethod, hb]

/-- Witness of C18 at the cancelOrder call `cancelOrderCall`, whose payload and
call-data are otherwise fine. -/
theorem handleMethod_cancelOrder_never_decodes_witness :
    cancelOrderCall.Name = METHOD_CANCEL_ORDER ∧
    (handleMethod exampleLib cancelOrderCall approveTx (some 5) 1000 TX_STATUS_SUCCESS
      METHOD_CANCEL_ORDER).calls = [] ∧
    (handleMethod exampleLib cancelOrderCall approveTx (some 5) 1000 TX_STATUS_SUCCESS
      METHOD_CANCEL_ORDER).result =
      .ret (some "cancelOrder method cann't get delegate address") :=
  have h := (handleMethod_cancelOrder_never_decodes exampleLib cancelOrderCall approveTx
    (some 5) 1000 TX_STATUS_SUCCESS METHOD_CANCEL_ORDER rfl).2
  ⟨rfl, congrArg Run.calls h, congrArg Run.result h⟩

/-- C19: `handleEthTransfer` returns the nil error whatever `Emit` returns, whereas
`handleMethod`, when its three steps succeed, returns exactly what
`Emit(m.Name, event)` returns. -/
theorem emit_result_dropped_or_returned (L : Lib) (tx : Transaction) :
    (∀ receipt time, (handleEthTransfer L tx receipt time).result = .ret none) ∧
    (∀ m gasUsed blockTime status methodName payload event,
      beforeUnpack L m tx gasUsed blockTime status methodName = none →
      unpack L m tx = .ret (payload, none) →
      afterUnpack L { m with Method := payload } = .ret (event, none) →
      (handleMethod L m tx gasUsed blockTime status methodName).result =
        .ret (L.Emit m.Name event)) := by
  refine ⟨fun _ _ => rfl, ?_⟩
  intro m gasUsed blockTime status methodName payload event hb hu ha
  simp only [handleMethod, hb, hu, ha]

/-- Witness of C19 with a publish capability that always fails: the plain transfer
still returns the nil error, the approve call returns the failure of `Emit`. -/
theorem emit_result_dropped_or_returned_witness :
    (handleEthTransfer failingEmitLib plainTx (some successReceipt) 1000).result = .ret none ∧
    (handleMethod failingEmitLib approveCall approveTx (some 5) 1000 TX_STATUS_SUCCESS
      METHOD_APPROVE).result = .ret (some "emit failed") :=
  ⟨(emit_result_dropped_or_returned failingEmitLib plainTx).1 (some successReceipt) 1000,
   (emit_result_dropped_or_returned failingEmitLib approveTx).2 approveCall (some 5) 1000
      TX_STATUS_SUCCESS METHOD_APPROVE (some ⟨.ApproveMethod, [0xAAA, 100]⟩)
      (.approval (some { TxInfo := TxInfo.zero, Owner := 0, Spender := 0xAAA,
                         Amount := some 100 }))
      (by decide) (by decide) (by decide)⟩

end Extractor
